import Mathlib

/-!
Shallow embedding of the client-side state-synchronization and rendering
engine of the RADAR TURRET web interface (src/radar_turret/web.h, the
JavaScript inside INDEX_HTML).

Numbers are modelled as exact rationals (ℚ).  A JSON field that may be
absent from a response is modelled as an `Option`; the JavaScript idiom
`x || d` (which replaces both `undefined` and `0` by the default `d`)
and the truthiness test `x && y` are embedded explicitly.
-/

namespace RadarTurret

/-- A detected object held in the decay buffer: `objects.push({ a: data.a,
r: data.d, life: 1.0 })` (web.h line 415). -/
structure Detection where
  a : ℚ
  r : ℚ
  life : ℚ
  deriving Repr, DecidableEq

/-- The JSON payload of a successful `/status` response: fields `a`, `r`,
`mode`, `running`, `d`, `li_a`, `li_d`.  Fields the device may omit are
`Option`s (`none` = absent). -/
structure StatusData where
  a : ℚ
  r : Option ℚ
  mode : Option ℤ
  running : Option ℤ
  d : ℚ
  li_a : Option ℚ
  li_d : Option ℚ
  deriving Repr, DecidableEq

/-- The module-level mutable view state of the page (web.h lines 371-376
plus the footer text set via `last-detection`).  `lastDetection` keeps the
`(li_d, li_a)` pair shown as `LAST: <li_d>cm @ <li_a>°`. -/
structure ViewState where
  scanAngle : ℚ
  maxRange : ℚ
  currentMode : ℤ
  isRunning : Bool
  isOffline : Bool
  objects : List Detection
  lastDetection : Option (ℚ × ℚ)
  deriving Repr, DecidableEq

/-- JavaScript `x || d` on a possibly-absent numeric field: `undefined`
and `0` are falsy, every other number is returned as is. -/
def jsOrQ (x : Option ℚ) (dflt : ℚ) : ℚ :=
  match x with
  | some v => if v = 0 then dflt else v
  | none => dflt

/-- JavaScript `x || d` on a possibly-absent integer field. -/
def jsOrZ (x : Option ℤ) (dflt : ℤ) : ℤ :=
  match x with
  | some v => if v = 0 then dflt else v
  | none => dflt

/-- JavaScript truthiness of a possibly-absent numeric field: `undefined`
and `0` are falsy. -/
def jsTruthy (x : Option ℚ) : Bool :=
  match x with
  | some v => v != 0
  | none => false

/-- Initial state (web.h lines 371-376): `scanAngle = 90`, `maxRange = 50`,
`currentMode = 0`, `isRunning = false`, `isOffline = true`, `objects = []`,
footer text `READY` (no last detection). -/
def initState : ViewState :=
  { scanAngle := 90
    maxRange := 50
    currentMode := 0
    isRunning := false
    isOffline := true
    objects := []
    lastDetection := none }

/-- The direct field assignments of the success branch of `pollStatus`
(web.h lines 407-411): `isOffline = false; scanAngle = data.a;
maxRange = data.r || 50; currentMode = data.mode || 0;
isRunning = data.running === 1`. -/
def mergeCore (data : StatusData) (st : ViewState) : ViewState :=
  { st with
    isOffline := false
    scanAngle := data.a
    maxRange := jsOrQ data.r 50
    currentMode := jsOrZ data.mode 0
    isRunning := data.running == some 1 }

/-- `if (data.d > 0) objects.push({ a: data.a, r: data.d, life: 1.0 })`
(web.h lines 414-416). -/
def recordDetection (data : StatusData) (st : ViewState) : ViewState :=
  if 0 < data.d then
    { st with objects := st.objects ++ [{ a := data.a, r := data.d, life := 1.0 }] }
  else st

/-- `if (data.li_a && data.li_d)` update the footer text with the pair
`(li_d, li_a)` (web.h lines 419-422). -/
def updateLast (data : StatusData) (st : ViewState) : ViewState :=
  if jsTruthy data.li_a && jsTruthy data.li_d then
    { st with lastDetection := some (data.li_d.getD 0, data.li_a.getD 0) }
  else st

/-- The whole state merge of the success branch of `pollStatus`
(web.h lines 407-422), in source order. -/
def mergeStatus (data : StatusData) (st : ViewState) : ViewState :=
  updateLast data (recordDetection data (mergeCore data st))

/-- The catch branch of `pollStatus` (web.h line 428): `isOffline = true`,
nothing else is touched. -/
def markOffline (st : ViewState) : ViewState :=
  { st with isOffline := true }

/-- The state change of one `pollStatus` tick before `draw()` runs:
success branch merges the response, failure branch only flags offline. -/
def applyPoll (res : Option StatusData) (st : ViewState) : ViewState :=
  match res with
  | some data => mergeStatus data st
  | none => markOffline st

/-- The decay step executed once per `draw()` call (web.h lines 500-501):
`objects.forEach(obj => obj.life -= 0.02); objects = objects.filter(obj =>
obj.life > 0)`. -/
def tickObjects (objs : List Detection) : List Detection :=
  (objs.map fun o => { o with life := o.life - 0.02 }).filter
    fun o => decide (0 < o.life)

/-- One full `pollStatus` tick (web.h lines 403-432): either branch runs its
state update and then calls `draw()` exactly once, which performs exactly
one `tickObjects` pass over the buffer. -/
def pollStatus (res : Option StatusData) (st : ViewState) : ViewState :=
  let s1 := applyPoll res st
  { s1 with objects := tickObjects s1.objects }

/-- A sequence of poll ticks, oldest first. -/
def runPolls (polls : List (Option StatusData)) (st : ViewState) : ViewState :=
  polls.foldl (fun s p => pollStatus p s) st

/-- `const modeNames = ['sentry', 'stealth', 'aggressive', 'party']`
(web.h line 378). -/
def modeNames : List String := ["sentry", "stealth", "aggressive", "party"]

/-- `const modeColors = ['#0f0', '#666', '#f00', '#f0f']` (web.h line 379). -/
def modeColors : List String := ["#0f0", "#666", "#f00", "#f0f"]

/-- JavaScript array indexing `l[i]`: `undefined` (`none`) when the index
is negative or past the end. -/
def jsIndex (l : List String) (i : ℤ) : Option String :=
  if 0 ≤ i then l.get? i.toNat else none

/-- JavaScript `x || d` on a possibly-undefined string: `undefined` and the
empty string are falsy. -/
def jsOrStr (x : Option String) (dflt : String) : String :=
  match x with
  | some s => if s = "" then dflt else s
  | none => dflt

/-- `const color = modeColors[currentMode] || '#0f0'` (web.h line 463): the
color of the sweep line and glow. -/
def sweepColor (m : ℤ) : String :=
  jsOrStr (jsIndex modeColors m) "#0f0"

/-- `ctx.fillStyle = color + '20'` (web.h line 493): the glow wedge color. -/
def glowColor (m : ℤ) : String :=
  sweepColor m ++ "20"

/-- `badge.className` as set by `updateUI` (web.h lines 438-443): `offline`
when disconnected, else `modeNames[currentMode]` with no fallback
(`none` = the JavaScript value `undefined`). -/
def badgeClass (st : ViewState) : Option String :=
  if st.isOffline then some "offline" else jsIndex modeNames st.currentMode

/-- `badge.textContent` as set by `updateUI` (web.h lines 438-443):
`OFFLINE` when disconnected, else `modeNames[currentMode].toUpperCase()`;
`none` models the `TypeError` thrown when `modeNames[currentMode]` is
`undefined` (no fallback in the source). -/
def badgeText (st : ViewState) : Option String :=
  if st.isOffline then some "OFFLINE"
  else (jsIndex modeNames st.currentMode).map String.toUpper

/-- The per-detection drawing decision of `draw` (web.h lines 503-516):
`dist = (obj.r / maxRange) * radius`; the object is drawn only when
`0 < dist && dist <= radius`, as a circle of radius `4 + (1 - life) * 4`
and fill alpha `life`; otherwise nothing is drawn for it. -/
def detectionDraw (maxRange radius : ℚ) (o : Detection) : Option (ℚ × ℚ) :=
  let dist := o.r / maxRange * radius
  if 0 < dist ∧ dist ≤ radius then
    some (4 + (1 - o.life) * 4, o.life)
  else none

example : (0.02 : ℚ) = 1 / 50 := by norm_num
example : tickObjects [{ a := 90, r := 30, life := 1 }] =
    [{ a := 90, r := 30, life := 0.98 }] := by norm_num [tickObjects]
example : (pollStatus none initState).isOffline = true := rfl

/-! Projection lemmas: which fields each step of the success branch leaves
untouched, read off the source line by line. -/

lemma recordDetection_maxRange (data : StatusData) (st : ViewState) :
    (recordDetection data st).maxRange = st.maxRange := by
  unfold recordDetection; split <;> rfl

lemma recordDetection_currentMode (data : StatusData) (st : ViewState) :
    (recordDetection data st).currentMode = st.currentMode := by
  unfold recordDetection; split <;> rfl

lemma recordDetection_isOffline (data : StatusData) (st : ViewState) :
    (recordDetection data st).isOffline = st.isOffline := by
  unfold recordDetection; split <;> rfl

lemma recordDetection_lastDetection (data : StatusData) (st : ViewState) :
    (recordDetection data st).lastDetection = st.lastDetection := by
  unfold recordDetection; split <;> rfl

lemma updateLast_maxRange (data : StatusData) (st : ViewState) :
    (updateLast data st).maxRange = st.maxRange := by
  unfold updateLast; split <;> rfl

lemma updateLast_currentMode (data : StatusData) (st : ViewState) :
    (updateLast data st).currentMode = st.currentMode := by
  unfold updateLast; split <;> rfl

lemma updateLast_isOffline (data : StatusData) (st : ViewState) :
    (updateLast data st).isOffline = st.isOffline := by
  unfold updateLast; split <;> rfl

lemma updateLast_objects (data : StatusData) (st : ViewState) :
    (updateLast data st).objects = st.objects := by
  unfold updateLast; split <;> rfl

lemma mergeStatus_maxRange (data : StatusData) (st : ViewState) :
    (mergeStatus data st).maxRange = jsOrQ data.r 50 := by
  unfold mergeStatus
  rw [updateLast_maxRange, recordDetection_maxRange]
  rfl

lemma mergeStatus_currentMode (data : StatusData) (st : ViewState) :
    (mergeStatus data st).currentMode = jsOrZ data.mode 0 := by
  unfold mergeStatus
  rw [updateLast_currentMode, recordDetection_currentMode]
  rfl

lemma mergeStatus_isOffline (data : StatusData) (st : ViewState) :
    (mergeStatus data st).isOffline = false := by
  unfold mergeStatus
  rw [updateLast_isOffline, recordDetection_isOffline]
  rfl

lemma mergeStatus_objects (data : StatusData) (st : ViewState) :
    (mergeStatus data st).objects =
      if 0 < data.d then
        st.objects ++ [{ a := data.a, r := data.d, life := 1.0 }]
      else st.objects := by
  unfold mergeStatus
  rw [updateLast_objects]
  unfold recordDetection
  split <;> rfl

lemma mergeStatus_lastDetection (data : StatusData) (st : ViewState) :
    (mergeStatus data st).lastDetection =
      if jsTruthy data.li_a && jsTruthy data.li_d then
        some (data.li_d.getD 0, data.li_a.getD 0)
      else st.lastDetection := by
  unfold mergeStatus updateLast
  by_cases h : (jsTruthy data.li_a && jsTruthy data.li_d) = true
  · rw [if_pos h, if_pos h]
  · rw [if_neg h, if_neg h, recordDetection_lastDetection]
    rfl

/-! Decay-buffer lemmas. -/

lemma tickObjects_nil : tickObjects [] = [] := rfl

lemma tickObjects_singleton (a r l : ℚ) (h : 0.02 < l) :
    tickObjects [{ a := a, r := r, life := l }] =
      [{ a := a, r := r, life := l - 0.02 }] := by
  unfold tickObjects
  simp only [List.map_cons, List.map_nil, List.filter, decide_eq_true_eq]
  rw [decide_eq_true (show (0:ℚ) < l - 0.02 by linarith)]

lemma tickObjects_singleton_dead (a r l : ℚ) (h : l ≤ 0.02) :
    tickObjects [{ a := a, r := r, life := l }] = [] := by
  unfold tickObjects
  simp only [List.map_cons, List.map_nil, List.filter, decide_eq_true_eq]
  rw [decide_eq_false (show ¬ (0:ℚ) < l - 0.02 by intro hc; linarith)]

lemma tickObjects_iterate (a r : ℚ) (n : ℕ) (h : (n : ℚ) * 0.02 < 1) :
    tickObjects^[n] [{ a := a, r := r, life := 1 }] =
      [{ a := a, r := r, life := 1 - n * 0.02 }] := by
  induction n with
  | zero => simp
  | succ k ih =>
    have hk : (k : ℚ) * 0.02 < 1 := by push_cast at h ⊢; linarith
    have h2 : (0.02 : ℚ) < 1 - k * 0.02 := by push_cast at h ⊢; linarith
    rw [Function.iterate_succ_apply', ih hk, tickObjects_singleton a r _ h2]
    simp only [List.cons.injEq, Detection.mk.injEq, true_and, and_true]
    push_cast
    ring

/-! Lookup-table lemmas. -/

lemma jsIndex_out (l : List String) (m : ℤ) (h : m < 0 ∨ (l.length : ℤ) ≤ m) :
    jsIndex l m = none := by
  unfold jsIndex
  rcases h with h | h
  · rw [if_neg (by omega)]
  · rw [if_pos (by omega)]
    exact List.get?_eq_none.2 (by omega)

lemma sweepColor_out (m : ℤ) (h : m < 0 ∨ 4 ≤ m) : sweepColor m = "#0f0" := by
  have hnone : jsIndex modeColors m = none := by
    refine jsIndex_out _ _ ?_
    simp only [modeColors, List.length_cons, List.length_nil]
    omega
  rw [sweepColor, hnone]
  rfl

lemma jsIndex_modeNames_out (m : ℤ) (h : m < 0 ∨ 4 ≤ m) :
    jsIndex modeNames m = none := by
  refine jsIndex_out _ _ ?_
  simp only [modeNames, List.length_cons, List.length_nil]
  omega

/-! Poll-sequence lemmas. -/

lemma jsOrQ_fifty_ne_zero (x : Option ℚ) : jsOrQ x 50 ≠ 0 := by
  rcases x with _ | v
  · simp only [jsOrQ]
    norm_num
  · simp only [jsOrQ]
    split
    · norm_num
    · assumption

lemma pollStatus_maxRange_ne (st : ViewState) (h : st.maxRange ≠ 0)
    (p : Option StatusData) : (pollStatus p st).maxRange ≠ 0 := by
  rcases p with _ | data
  · exact h
  · show (mergeStatus data st).maxRange ≠ 0
    rw [mergeStatus_maxRange]
    exact jsOrQ_fifty_ne_zero data.r

lemma runPolls_maxRange_ne (polls : List (Option StatusData)) :
    ∀ st : ViewState, st.maxRange ≠ 0 → (runPolls polls st).maxRange ≠ 0 := by
  induction polls with
  | nil => intro st h; exact h
  | cons p rest ih =>
    intro st h
    show (runPolls rest (pollStatus p st)).maxRange ≠ 0
    exact ih _ (pollStatus_maxRange_ne st h p)

lemma runPolls_offline_objects (n : ℕ) : ∀ st : ViewState,
    (runPolls (List.replicate n none) st).objects = tickObjects^[n] st.objects := by
  induction n with
  | zero => intro st; rfl
  | succ k ih =>
    intro st
    show (runPolls (List.replicate k none) (pollStatus none st)).objects = _
    rw [ih (pollStatus none st)]
    have hobj : (pollStatus none st).objects = tickObjects st.objects := rfl
    rw [hobj, Function.iterate_succ_apply]

/-! Concrete `/status` payloads used as witnesses and counterexamples. -/

/-- A response supplying `r = 100`, nothing else of note. -/
def statusR100 : StatusData :=
  { a := 90, r := some 100, mode := some 0, running := some 1, d := 0,
    li_a := none, li_d := none }

/-- A response omitting `r`. -/
def statusRNone : StatusData :=
  { a := 90, r := none, mode := some 0, running := some 1, d := 0,
    li_a := none, li_d := none }

/-- A response reporting a last intrusion at angle 0, distance 30. -/
def statusLiaZero : StatusData :=
  { a := 90, r := some 50, mode := some 0, running := some 1, d := 0,
    li_a := some 0, li_d := some 30 }

/-- A response reporting a last intrusion at angle 45, distance 20. -/
def statusLi : StatusData :=
  { a := 90, r := some 50, mode := some 0, running := some 1, d := 0,
    li_a := some 45, li_d := some 20 }

/-- A response with an instantaneous detection at distance 30. -/
def statusD30 : StatusData :=
  { a := 90, r := some 50, mode := some 0, running := some 1, d := 30,
    li_a := none, li_d := none }

/-- A response reporting the out-of-range mode 7. -/
def statusMode7 : StatusData :=
  { a := 90, r := some 50, mode := some 7, running := some 1, d := 0,
    li_a := none, li_d := none }

/-- A state that has already displayed a last intrusion of 20 cm at 45°. -/
def stWithLast : ViewState :=
  { initState with lastDetection := some (20, 45) }

/-- C1 (counterexample): after a successful poll set `maxRange` to 100, a
further successful poll that omits `r` does NOT retain the previous value —
`maxRange` is reset to the default 50. -/
theorem C1_omitted_r_resets_counterexample :
    (pollStatus (some statusR100) initState).maxRange = 100 ∧
    (pollStatus (some statusRNone) (pollStatus (some statusR100) initState)).maxRange = 50 ∧
    (pollStatus (some statusRNone) (pollStatus (some statusR100) initState)).maxRange ≠
      (pollStatus (some statusR100) initState).maxRange := by
  refine ⟨?_, ?_, ?_⟩ <;>
    norm_num [pollStatus, applyPoll, mergeStatus, updateLast, recordDetection,
      mergeCore, jsOrQ, jsOrZ, jsTruthy, tickObjects, initState, statusR100,
      statusRNone]

/-- C1 (amended): a successful poll that omits `r` or supplies `r = 0`
resets `maxRange` to the default 50; `maxRange` is overwritten with the
response's `r` exactly when that `r` is non-zero. -/
theorem C1_maxRange_merge (data : StatusData) (st : ViewState) :
    ((data.r = none ∨ data.r = some 0) → (mergeStatus data st).maxRange = 50) ∧
    (∀ v : ℚ, data.r = some v → v ≠ 0 → (mergeStatus data st).maxRange = v) := by
  constructor
  · intro h
    rw [mergeStatus_maxRange]
    rcases h with h | h <;> simp [jsOrQ, h]
  · intro v hv hne
    rw [mergeStatus_maxRange]
    simp [jsOrQ, hv, hne]

/-- C1 (witness): the amended statement evaluated on the concrete payloads
`statusRNone` (omitted `r`) and `statusR100` (`r = 100`). -/
theorem C1_maxRange_merge_witness :
    (mergeStatus statusRNone initState).maxRange = 50 ∧
    (mergeStatus statusR100 initState).maxRange = 100 :=
  ⟨(C1_maxRange_merge statusRNone initState).1 (Or.inl rfl),
   (C1_maxRange_merge statusR100 initState).2 100 rfl (by norm_num)⟩

/-- C2: a failed poll flips `isOffline` to true and leaves `scanAngle`,
`currentMode`, `isRunning`, `maxRange` and the last-detection display at
their previous values. -/
theorem C2_failed_poll_stale (st : ViewState) :
    (pollStatus none st).isOffline = true ∧
    (pollStatus none st).scanAngle = st.scanAngle ∧
    (pollStatus none st).currentMode = st.currentMode ∧
    (pollStatus none st).isRunning = st.isRunning ∧
    (pollStatus none st).maxRange = st.maxRange ∧
    (pollStatus none st).lastDetection = st.lastDetection :=
  ⟨rfl, rfl, rfl, rfl, rfl, rfl⟩

/-- C3 (counterexample): a successful poll reporting last intrusion angle
`li_a = 0` with distance `li_d = 30` does NOT overwrite the displayed last
detection — `li_a = 0` is falsy in the guard `data.li_a && data.li_d`. -/
theorem C3_lia_zero_counterexample :
    (pollStatus (some statusLiaZero) stWithLast).lastDetection = some (20, 45) ∧
    (pollStatus (some statusLiaZero) stWithLast).lastDetection ≠ some (30, 0) := by
  have h : (pollStatus (some statusLiaZero) stWithLast).lastDetection =
      stWithLast.lastDetection := by
    show (mergeStatus statusLiaZero stWithLast).lastDetection =
      stWithLast.lastDetection
    rw [mergeStatus_lastDetection]
    rw [if_neg (by norm_num [jsTruthy, statusLiaZero])]
  rw [h]
  constructor
  · rfl
  · norm_num [stWithLast, initState]

/-- C3 (amended): a successful poll overwrites the displayed last detection
with the reported `(li_d, li_a)` pair exactly when `li_a` and `li_d` are
both present and non-zero; when either is absent or zero — in particular
when the reported intrusion angle `li_a` equals 0 — the display keeps its
previous value. -/
theorem C3_lastDetection_update (data : StatusData) (st : ViewState) :
    (jsTruthy data.li_a = true → jsTruthy data.li_d = true →
       (mergeStatus data st).lastDetection =
         some (data.li_d.getD 0, data.li_a.getD 0)) ∧
    (jsTruthy data.li_a = false →
       (mergeStatus data st).lastDetection = st.lastDetection) ∧
    (jsTruthy data.li_d = false →
       (mergeStatus data st).lastDetection = st.lastDetection) := by
  rw [mergeStatus_lastDetection]
  refine ⟨fun h1 h2 => ?_, fun h1 => ?_, fun h2 => ?_⟩
  · rw [if_pos (by rw [h1, h2]; rfl)]
  · rw [if_neg (by rw [h1]; simp)]
  · rw [if_neg (by rw [h2]; simp)]

/-- C3 (witness): the amended statement evaluated on `statusLi` (both
fields non-zero, overwrite happens) and `statusLiaZero` (`li_a = 0`, the
previous display is kept). -/
theorem C3_lastDetection_update_witness :
    (mergeStatus statusLi stWithLast).lastDetection = some (20, 45) ∧
    (mergeStatus statusLiaZero stWithLast).lastDetection = some (20, 45) :=
  ⟨(C3_lastDetection_update statusLi stWithLast).1 (by norm_num [jsTruthy, statusLi])
     (by norm_num [jsTruthy, statusLi]),
   (C3_lastDetection_update statusLiaZero stWithLast).2.1
     (by norm_num [jsTruthy, statusLiaZero])⟩

/-- C4: a successful poll with instantaneous distance `d > 0` appends
exactly one new Detection, carrying the poll's angle and distance and
`life = 1.0`; a poll with `d = 0` appends nothing. -/
theorem C4_record_detection (data : StatusData) (st : ViewState) :
    (0 < data.d → (mergeStatus data st).objects =
       st.objects ++ [{ a := data.a, r := data.d, life := 1.0 }]) ∧
    (data.d = 0 → (mergeStatus data st).objects = st.objects) := by
  rw [mergeStatus_objects]
  constructor
  · intro h
    rw [if_pos h]
  · intro h
    rw [if_neg (by rw [h]; exact lt_irrefl 0)]

/-- C4 (witness): evaluated on `statusD30` (`d = 30`, one Detection with
`life = 1.0` appears) and `statusR100` (`d = 0`, the buffer is untouched). -/
theorem C4_record_detection_witness :
    (mergeStatus statusD30 initState).objects =
      [{ a := 90, r := 30, life := 1.0 }] ∧
    (mergeStatus statusR100 initState).objects = [] :=
  ⟨(C4_record_detection statusD30 initState).1 (by norm_num [statusD30]),
   (C4_record_detection statusR100 initState).2 rfl⟩

/-- C5: in exact arithmetic a Detection born with `life = 1` loses exactly
0.02 of life per decay tick; it is still present after the 49th tick (with
`life = 1 - 49 * 0.02 = 0.02`) and the buffer is empty after the 50th and
51st ticks — removal happens exactly when `life` crosses ≤ 0. -/
theorem C5_decay_exact (a r : ℚ) :
    (∀ l : ℚ, 0.02 < l →
       tickObjects [{ a := a, r := r, life := l }] =
         [{ a := a, r := r, life := l - 0.02 }]) ∧
    tickObjects^[49] [{ a := a, r := r, life := 1 }] =
      [{ a := a, r := r, life := 1 - 49 * 0.02 }] ∧
    tickObjects^[50] [{ a := a, r := r, life := 1 }] = [] ∧
    tickObjects^[51] [{ a := a, r := r, life := 1 }] = [] := by
  have h49 : tickObjects^[49] [{ a := a, r := r, life := 1 }] =
      [{ a := a, r := r, life := 1 - 49 * 0.02 }] := by
    rw [tickObjects_iterate a r 49 (by norm_num)]
    simp only [List.cons.injEq, Detection.mk.injEq, true_and, and_true]
    norm_num
  have h50 : tickObjects^[50] [{ a := a, r := r, life := 1 }] = [] := by
    have : (50 : ℕ) = 49 + 1 := rfl
    rw [this, Function.iterate_succ_apply', h49]
    have hl : (1 : ℚ) - 49 * 0.02 = 0.02 := by norm_num
    rw [hl]
    exact tickObjects_singleton_dead a r 0.02 le_rfl
  refine ⟨fun l hl => tickObjects_singleton a r l hl, h49, h50, ?_⟩
  have : (51 : ℕ) = 50 + 1 := rfl
  rw [this, Function.iterate_succ_apply', h50, tickObjects_nil]

/-- C5 (witness): the per-tick decrement evaluated at a Detection at angle
90, distance 30, full life. -/
theorem C5_decay_exact_witness :
    tickObjects [{ a := 90, r := 30, life := 1 }] =
      [{ a := 90, r := 30, life := 1 - 0.02 }] ∧
    tickObjects^[51] [{ a := (90 : ℚ), r := 30, life := 1 }] = [] :=
  ⟨(C5_decay_exact 90 30).1 1 (by norm_num), (C5_decay_exact 90 30).2.2.2⟩

/-- C6: the sweep line and glow colors are green, gray, red and magenta for
modes 0-3, and any mode outside {0,1,2,3} falls back to the default green
(`#0f0`, glow `#0f020`) — the lookup is total, it cannot crash the
renderer. -/
theorem C6_sweep_color (m : ℤ) :
    sweepColor 0 = "#0f0" ∧ sweepColor 1 = "#666" ∧ sweepColor 2 = "#f00" ∧
    sweepColor 3 = "#f0f" ∧
    (m < 0 ∨ 4 ≤ m → sweepColor m = "#0f0" ∧ glowColor m = "#0f020") := by
  refine ⟨rfl, rfl, rfl, rfl, fun h => ⟨sweepColor_out m h, ?_⟩⟩
  show sweepColor m ++ "20" = "#0f020"
  rw [sweepColor_out m h]
  rfl

/-- C6 (witness): the fallback evaluated at the unrecognized mode 7. -/
theorem C6_sweep_color_witness :
    sweepColor 7 = "#0f0" ∧ glowColor 7 = "#0f020" :=
  (C6_sweep_color 7).2.2.2.2 (Or.inr (by norm_num))

/-- C7: a live Detection whose computed display distance
`(r / maxRange) * radius` exceeds the display radius is skipped entirely
(nothing is drawn, no clamping); one with positive computed distance within
the radius is drawn as a circle of radius `4 + (1 - life) * 4` — between
the base 4 px and 8 px for `life` in [0,1] — with alpha equal to `life`. -/
theorem C7_detection_skip_or_draw (mr radius : ℚ) (o : Detection) :
    (radius < o.r / mr * radius → detectionDraw mr radius o = none) ∧
    (0 < o.r / mr * radius → o.r / mr * radius ≤ radius →
       detectionDraw mr radius o = some (4 + (1 - o.life) * 4, o.life)) ∧
    (0 ≤ o.life → o.life ≤ 1 →
       4 ≤ 4 + (1 - o.life) * 4 ∧ 4 + (1 - o.life) * 4 ≤ 8) := by
  refine ⟨fun h => ?_, fun h1 h2 => ?_, fun h1 h2 => ?_⟩
  · simp only [detectionDraw]
    rw [if_neg]
    rintro ⟨hc1, hc2⟩
    linarith
  · simp only [detectionDraw]
    rw [if_pos ⟨h1, h2⟩]
  · constructor <;> nlinarith

/-- C7 (witness): with `maxRange = 50` and display radius 245, a Detection
at distance 60 (computed distance 294 > 245) is skipped, and one at
distance 30 with `life = 0.5` (computed distance 147) is drawn with circle
radius `4 + 0.5 * 4 = 6` and alpha 0.5, which lies within [4, 8]. -/
theorem C7_detection_skip_or_draw_witness :
    detectionDraw 50 245 { a := 90, r := 60, life := 1 } = none ∧
    detectionDraw 50 245 { a := 90, r := 30, life := 0.5 } =
      some (4 + (1 - 0.5) * 4, 0.5) ∧
    4 ≤ 4 + (1 - (0.5 : ℚ)) * 4 ∧ 4 + (1 - (0.5 : ℚ)) * 4 ≤ 8 :=
  ⟨(C7_detection_skip_or_draw 50 245 { a := 90, r := 60, life := 1 }).1
     (by norm_num),
   (C7_detection_skip_or_draw 50 245 { a := 90, r := 30, life := 0.5 }).2.1
     (by norm_num) (by norm_num),
   (C7_detection_skip_or_draw 50 245 { a := 90, r := 30, life := 0.5 }).2.2
     (by norm_num) (by norm_num)⟩

/-- C8: a poll reporting `r = 0` or omitting `r` is guarded by the default
50 before the renderer runs, and `maxRange` is non-zero in every state
reachable from startup by any sequence of successful or failed polls — the
renderer never divides by a zero `maxRange`. -/
theorem C8_maxRange_never_zero (polls : List (Option StatusData)) :
    (∀ data st, (data.r = none ∨ data.r = some 0) →
       (mergeStatus data st).maxRange = 50) ∧
    (runPolls polls initState).maxRange ≠ 0 := by
  constructor
  · intro data st h
    rw [mergeStatus_maxRange]
    rcases h with h | h <;> simp [jsOrQ, h]
  · refine runPolls_maxRange_ne polls initState ?_
    norm_num [initState]

/-- C8 (witness): the guard evaluated on a poll omitting `r`, and the
invariant evaluated on the empty poll sequence. -/
theorem C8_maxRange_never_zero_witness :
    (mergeStatus statusRNone initState).maxRange = 50 ∧
    (runPolls [] initState).maxRange ≠ 0 :=
  ⟨(C8_maxRange_never_zero []).1 statusRNone initState (Or.inl rfl),
   (C8_maxRange_never_zero []).2⟩

/-- C9: every poll tick — successful or failed — runs exactly one decay
pass over the buffer (the single `draw()` call of either branch), so during
an outage of `n` consecutive failed polls the buffer decays `n` times
rather than freezing. -/
theorem C9_one_decay_per_poll (res : Option StatusData) (st : ViewState)
    (n : ℕ) :
    (pollStatus res st).objects = tickObjects (applyPoll res st).objects ∧
    (pollStatus none st).objects = tickObjects st.objects ∧
    (runPolls (List.replicate n none) st).objects = tickObjects^[n] st.objects :=
  ⟨rfl, rfl, runPolls_offline_objects n st⟩

/-- C10: the no-crash guarantee does not extend to the UI binder: a
successful poll reporting a mode outside {0,1,2,3} (reachable, since
`currentMode = data.mode || 0`) leaves the page connected with that mode,
where `updateUI` evaluates `modeNames[currentMode]` with no fallback —
`undefined` (`none`), so the badge class/text update is not total — while
the renderer's color lookup still falls back to green. -/
theorem C10_badge_not_total (m : ℤ) (data : StatusData) (st : ViewState)
    (hm : data.mode = some m) (hout : m < 0 ∨ 4 ≤ m) :
    (mergeStatus data st).isOffline = false ∧
    (mergeStatus data st).currentMode = m ∧
    badgeClass (mergeStatus data st) = none ∧
    badgeText (mergeStatus data st) = none ∧
    sweepColor (mergeStatus data st).currentMode = "#0f0" := by
  have hm0 : m ≠ 0 := by omega
  have hcm : (mergeStatus data st).currentMode = m := by
    rw [mergeStatus_currentMode, hm]
    simp [jsOrZ, hm0]
  have hoff : (mergeStatus data st).isOffline = false :=
    mergeStatus_isOffline data st
  have hnone : jsIndex modeNames m = none := jsIndex_modeNames_out m hout
  refine ⟨hoff, hcm, ?_, ?_, ?_⟩
  · rw [badgeClass, hoff, hcm, hnone]
    rfl
  · rw [badgeText, hoff, hcm, hnone]
    rfl
  · rw [hcm]
    exact sweepColor_out m hout

/-- C10 (witness): evaluated on a poll reporting mode 7 from startup. -/
theorem C10_badge_not_total_witness :
    badgeClass (mergeStatus statusMode7 initState) = none ∧
    badgeText (mergeStatus statusMode7 initState) = none :=
  ⟨(C10_badge_not_total 7 statusMode7 initState rfl (Or.inr (by norm_num))).2.2.1,
   (C10_badge_not_total 7 statusMode7 initState rfl (Or.inr (by norm_num))).2.2.2.1⟩

end RadarTurret
